import Mathlib

/-!
# LoanAI decision engine — shallow embedding

Verification development for the LoanAI multi-agent loan decision engine.
The definitions below are translated from the repository's engine code:
`RiskScoringModel.calculate_aggregate_risk` and `_calculate_loan_risk`,
`LoanOfficerDecisionEngine.make_decision`, `_check_override_conditions` and
`_calculate_loan_terms`, `AgentCommunicationHub.build_consensus`,
`facilitate_discussion` and `_check_early_consensus`,
`LoanApplicationProcessor.process`, and the loan-application submission
route handler (`POST`).

Python floats carrying exact decimal policy constants (0.35, 3.5, …) are
modelled as rationals; integer risk scores as `ℤ`; a value that Python code
may leave unset (dataclass default) as `Option`; a Python function that can
raise as `Except String`.
-/

namespace LoanAI

/-- Analyzer recommendation vocabulary: the `recommendation` strings
`"approve"`, `"reject"`, `"review"` produced by the three analyzers. -/
inductive Recommendation
  | approve
  | reject
  | review
deriving DecidableEq

instance : Fintype Recommendation where
  elems := ⟨[Recommendation.approve, Recommendation.reject, Recommendation.review], by decide⟩
  complete := by intro x; cases x <;> decide

/-- Decision vocabulary of the engine: the code's strings `"APPROVE"`,
`"REJECT"`, `"MANUAL_REVIEW"` (the spec's names for the same three values
are `APPROVED`, `REJECTED`, `MANUAL_REVIEW`). -/
inductive Decision
  | APPROVE
  | REJECT
  | MANUAL_REVIEW
deriving DecidableEq

/-- Risk category strings assigned by `calculate_aggregate_risk`. -/
inductive RiskCategory
  | LOW_RISK
  | MODERATE_LOW_RISK
  | MODERATE_RISK
  | MODERATE_HIGH_RISK
  | HIGH_RISK
deriving DecidableEq

/-- One entry of an analyzer's `red_flags` list (`{type, severity, …}`). -/
structure RedFlag where
  type : String
  severity : String
deriving DecidableEq

/-- The structured result one analyzer produces (`BankAnalysisResult` and
the analogous salary/verification results): the fields the engine reads. -/
structure AnalysisResult where
  confidence_score : ℚ
  risk_score : ℤ
  recommendation : Recommendation
  reasoning : String
  red_flags : List RedFlag
deriving DecidableEq

/-- `application.loan_request` — the loan-request fields the engine reads. -/
structure LoanRequest where
  loan_amount : ℚ
  loan_duration : ℤ
  loan_purpose : String
deriving DecidableEq

/-- The slice of `LoanApplication` the decision engine reads. -/
structure LoanApplication where
  loan_request : LoanRequest
deriving DecidableEq

/-- Python's `round(q, 2)`.  The engine only ever rounds rationals whose
hundredfold is an integer (integer risk scores combined through /100
weights), where every rounding convention agrees and `round2` is exact. -/
def round2 (q : ℚ) : ℚ := (round (q * 100) : ℤ) / 100

namespace RiskScoringModel

/-- `RiskScoringModel._calculate_loan_risk`: risk from loan characteristics
(amount, duration, purpose), capped at 100. -/
def calculate_loan_risk (loan_details : LoanRequest) : ℤ :=
  let risk : ℤ := 0
  let risk : ℤ :=
    if loan_details.loan_amount > 100000 then risk + 15
    else if loan_details.loan_amount > 50000 then risk + 10
    else if loan_details.loan_amount > 25000 then risk + 5
    else risk
  let risk : ℤ :=
    if loan_details.loan_duration > 60 then risk + 10
    else if loan_details.loan_duration > 36 then risk + 5
    else risk
  let risk : ℤ :=
    if loan_details.loan_purpose = "business" ∨ loan_details.loan_purpose = "others" then
      risk + 10
    else risk
  min risk 100

/-- The category/recommendation if-chain of `calculate_aggregate_risk`. -/
def risk_banding (total_risk : ℚ) : RiskCategory × Decision :=
  if total_risk < 20 then (RiskCategory.LOW_RISK, Decision.APPROVE)
  else if total_risk < 40 then (RiskCategory.MODERATE_LOW_RISK, Decision.APPROVE)
  else if total_risk < 60 then (RiskCategory.MODERATE_RISK, Decision.MANUAL_REVIEW)
  else if total_risk < 75 then (RiskCategory.MODERATE_HIGH_RISK, Decision.REJECT)
  else (RiskCategory.HIGH_RISK, Decision.REJECT)

/-- The dictionary `calculate_aggregate_risk` returns (the fields the
engine reads downstream). -/
structure RiskAnalysis where
  total_risk_score : ℚ
  risk_category : RiskCategory
  recommendation : Decision
  loan_characteristics_risk : ℤ
deriving DecidableEq

/-- `RiskScoringModel.calculate_aggregate_risk`: fixed-weight combination
of the three analyzer risks (0.35, 0.30, 0.20) plus the loan-characteristics
term at weight 0.15, then banding. -/
def calculate_aggregate_risk (bank_risk salary_risk verification_risk : ℤ)
    (loan_details : LoanRequest) : RiskAnalysis :=
  let w_bank : ℚ := 35 / 100
  let w_salary : ℚ := 30 / 100
  let w_verification : ℚ := 20 / 100
  let w_loan : ℚ := 15 / 100
  let base_risk : ℚ :=
    (bank_risk : ℚ) * w_bank + (salary_risk : ℚ) * w_salary +
      (verification_risk : ℚ) * w_verification
  let loan_risk : ℤ := calculate_loan_risk loan_details
  let total_risk : ℚ := base_risk + (loan_risk : ℚ) * w_loan
  let banding := risk_banding total_risk
  { total_risk_score := round2 total_risk
    risk_category := banding.1
    recommendation := banding.2
    loan_characteristics_risk := loan_risk }

end RiskScoringModel

/-- The terminal `DecisionResult`.  Fields the override constructors leave
at their dataclass defaults are `Option`-valued (`none` = not computed). -/
structure DecisionResult where
  decision : Decision
  risk_score : ℚ
  risk_category : Option RiskCategory := none
  confidence_score : Option ℚ := none
  approved_amount : Option ℚ := none
  interest_rate : Option ℚ := none
  loan_duration : Option ℤ := none
  conditions : List String := []
  explanation : String := ""
deriving DecidableEq

namespace LoanOfficerDecisionEngine

/-- The dictionary `_calculate_loan_terms` returns. -/
structure LoanTerms where
  approved_amount : ℚ
  interest_rate : ℚ
  duration : ℤ
  conditions : List String
deriving DecidableEq

/-- `LoanOfficerDecisionEngine._calculate_loan_terms`: amount and rate
tiers by risk score, plus condition hooks at risk > 30 and > 40. -/
def calculate_loan_terms (application : LoanApplication) (risk_score : ℚ) : LoanTerms :=
  let requested_amount : ℚ := application.loan_request.loan_amount
  let requested_duration : ℤ := application.loan_request.loan_duration
  let amount_rate : ℚ × ℚ :=
    if risk_score < 20 then (requested_amount, 35 / 10)
    else if risk_score < 40 then (requested_amount * (9 / 10), 55 / 10)
    else if risk_score < 60 then (requested_amount * (7 / 10), 75 / 10)
    else (0, 0)
  let conditions : List String :=
    (if risk_score > 30 then ["Requires co-signer"] else []) ++
      (if risk_score > 40 then ["Additional collateral required"] else [])
  { approved_amount := round2 amount_rate.1
    interest_rate := amount_rate.2
    duration := requested_duration
    conditions := conditions }

/-- Does one analyzer result carry a red flag with `type == "fraud"`? -/
def has_fraud_flag (result : AnalysisResult) : Bool :=
  result.red_flags.any (fun f => f.type = "fraud")

/-- `LoanOfficerDecisionEngine._check_override_conditions`: document fraud
first (REJECT, risk 100), then total red-flag count ≥ 3 (REJECT, risk 85);
`none` when no override fires. -/
def check_override_conditions (results : List AnalysisResult) : Option DecisionResult :=
  if results.any has_fraud_flag then
    some { decision := Decision.REJECT
           risk_score := 100
           explanation := "Document fraud detected. Application rejected."
           conditions := ["FRAUD_DETECTED"] }
  else
    let total_red_flags : Nat := (results.map (fun r => r.red_flags.length)).sum
    if 3 ≤ total_red_flags then
      some { decision := Decision.REJECT
             risk_score := 85
             explanation := "Multiple red flags detected. Application rejected." }
    else none

end LoanOfficerDecisionEngine

namespace AgentCommunicationHub

/-- The consensus dictionary `build_consensus` returns (scalar fields; the
per-agent breakdown fields are the inputs themselves, kept alongside). -/
structure Consensus where
  consensus_recommendation : Option Recommendation
  consensus_strength : ℚ
  weighted_risk_score : ℚ
deriving DecidableEq

/-- The `rec_counts` dictionary of `build_consensus`: occurrence counts in
first-seen key order (Python dict insertion order). -/
def rec_counts (recs : List Recommendation) : List (Recommendation × Nat) :=
  recs.foldl
    (fun counts rec =>
      if counts.any (fun p => p.1 = rec) then
        counts.map (fun p => if p.1 = rec then (p.1, p.2 + 1) else p)
      else counts ++ [(rec, 1)])
    []

/-- Python's `max(rec_counts, key=rec_counts.get)`: the first key (in dict
insertion order) attaining the maximal count; `max` on an empty dict
raises, modelled as `none`. -/
def max_count_key : List (Recommendation × Nat) → Option Recommendation
  | [] => none
  | p :: ps => some ((ps.foldl (fun best q => if best.2 < q.2 then q else best) p).1)

/-- The majority-vote step of `build_consensus` on the list of final
recommendations (results-dict value order). -/
def consensus_recommendation_of (recs : List Recommendation) : Option Recommendation :=
  max_count_key (rec_counts recs)

/-- Count held in `rec_counts` for a key (0 when absent). -/
def count_of (recs : List Recommendation) (r : Recommendation) : Nat :=
  (((rec_counts recs).find? (fun p => p.1 = r)).map Prod.snd).getD 0

/-- `AgentCommunicationHub.build_consensus` over the analysis-results map
(in its Python insertion order `bank_analysis`, `salary_analysis`,
`verification`): confidence-weighted risk, plurality recommendation, and
consensus strength = winner count / number of recommendations. -/
def build_consensus (results : List (String × AnalysisResult)) : Consensus :=
  let recommendations : List Recommendation := results.map (fun p => p.2.recommendation)
  let total_confidence : ℚ := (results.map (fun p => p.2.confidence_score)).sum
  let weighted_risk : ℚ :=
    (results.map (fun p => (p.2.risk_score : ℚ) * p.2.confidence_score)).sum / total_confidence
  let winner : Option Recommendation := consensus_recommendation_of recommendations
  let strength : ℚ :=
    match winner with
    | some w => (count_of recommendations w : ℚ) / (recommendations.length : ℚ)
    | none => 0
  { consensus_recommendation := winner
    consensus_strength := strength
    weighted_risk_score := weighted_risk }

end AgentCommunicationHub

namespace LoanOfficerDecisionEngine

/-- `LoanOfficerDecisionEngine.make_decision` on the three (successful)
analyzer results: aggregate risk, override check, consensus-strength gate
over the banded recommendation, loan terms, final `DecisionResult`.
(The human-readable explanation string of `_generate_explanation` is not
reconstructed; no claim concerns its content.) -/
def make_decision (application : LoanApplication)
    (bank_analysis salary_analysis verification : AnalysisResult)
    (consensus : AgentCommunicationHub.Consensus) : DecisionResult :=
  let risk_analysis := RiskScoringModel.calculate_aggregate_risk
    bank_analysis.risk_score salary_analysis.risk_score verification.risk_score
    application.loan_request
  match check_override_conditions [bank_analysis, salary_analysis, verification] with
  | some override_decision => override_decision
  | none =>
    let base_decision : Decision := risk_analysis.recommendation
    let base_decision : Decision :=
      if consensus.consensus_strength < 6 / 10 then Decision.MANUAL_REVIEW else base_decision
    let loan_terms := calculate_loan_terms application risk_analysis.total_risk_score
    { decision := base_decision
      risk_score := risk_analysis.total_risk_score
      risk_category := some risk_analysis.risk_category
      confidence_score := some consensus.consensus_strength
      approved_amount := some loan_terms.approved_amount
      interest_rate := some loan_terms.interest_rate
      loan_duration := some loan_terms.duration
      conditions := loan_terms.conditions
      explanation := "" }

end LoanOfficerDecisionEngine

namespace AgentCommunicationHub

/-- Lowercased character list of a string: Python's `message.lower()`. -/
def lowerChars (s : String) : List Char := s.toList.map Char.toLower

/-- Does the second list start with the first? -/
def leadsWith : List Char → List Char → Bool
  | [], _ => true
  | _ :: _, [] => false
  | p :: ps, c :: cs => p == c && leadsWith ps cs

/-- Python's substring test `pat in s` on character lists. -/
def hasSeq (pat : List Char) : List Char → Bool
  | [] => leadsWith pat []
  | c :: cs => leadsWith pat (c :: cs) || hasSeq pat cs

/-- The filter of `_check_early_consensus`:
`'approve' in msg.lower() or 'reject' in msg.lower()`. -/
def mentions_decision (message : String) : Bool :=
  hasSeq "approve".toList (lowerChars message) || hasSeq "reject".toList (lowerChars message)

/-- `AgentCommunicationHub._check_early_consensus` on one round's message
texts: keep the lowercased messages that contain `approve` or `reject`,
then test `len(set(...)) == 1`. -/
def check_early_consensus (messages : List String) : Bool :=
  let recommendations : List (List Char) :=
    (messages.filter mentions_decision).map lowerChars
  recommendations.dedup.length == 1

/-- The round loop of `facilitate_discussion`, returning how many rounds
were run: `fuel` rounds remain, `k` rounds have completed; round `k`'s
messages are `msgs k`; the loop breaks after the first round whose messages
pass `check_early_consensus`. -/
def run_rounds (msgs : Nat → List String) : Nat → Nat → Nat
  | 0, k => k
  | fuel + 1, k =>
    if check_early_consensus (msgs k) then k + 1
    else run_rounds msgs fuel (k + 1)

/-- `AgentCommunicationHub.facilitate_discussion` (default `max_rounds=3`),
abstracted over the deterministic per-round message production `msgs`:
the number of deliberation rounds actually executed. -/
def facilitate_discussion_rounds (max_rounds : Nat) (msgs : Nat → List String) : Nat :=
  run_rounds msgs max_rounds 0

/-- Attribute access on a gathered analysis value: with
`asyncio.gather(..., return_exceptions=True)` a failed analyzer's entry is
the raised exception object, and reading `.recommendation`/`.risk_score`
off it raises `AttributeError`. -/
def attr_access (gathered : Except String AnalysisResult) : Except String AnalysisResult :=
  gathered.mapError (fun e => "AttributeError on analyzer exception: " ++ e)

/-- `build_consensus` as invoked by `LoanApplicationProcessor.process`,
where the gathered results may be exception objects: the extraction loop
(`result.recommendation`, `result.risk_score`, `result.confidence_score`)
raises at the first exception entry. -/
def build_consensus_gathered
    (results : List (String × Except String AnalysisResult)) :
    Except String Consensus := do
  let extracted ← results.mapM (fun p => do
    let r ← attr_access p.2
    pure (p.1, r))
  pure (build_consensus extracted)

end AgentCommunicationHub

namespace LoanApplicationProcessor

/-- `make_decision` as invoked by `process`, reading
`sub_agent_results['bank_analysis'].risk_score` (etc.) off values that may
be exception objects. -/
def make_decision_gathered (application : LoanApplication)
    (bank_analysis salary_analysis verification : Except String AnalysisResult)
    (consensus : AgentCommunicationHub.Consensus) : Except String DecisionResult := do
  let b ← AgentCommunicationHub.attr_access bank_analysis
  let s ← AgentCommunicationHub.attr_access salary_analysis
  let v ← AgentCommunicationHub.attr_access verification
  pure (LoanOfficerDecisionEngine.make_decision application b s v consensus)

/-- `LoanApplicationProcessor.process` after the parallel gather: the
gathered per-analyzer values (result or exception, in the task-dict order
`bank_analysis`, `salary_analysis`, `verification`) flow into
`build_consensus` and then `make_decision`.  The deliberation transcript
only feeds the explanation summary, not the decision values. -/
def process (application : LoanApplication)
    (bank_analysis salary_analysis verification : Except String AnalysisResult) :
    Except String DecisionResult := do
  let consensus ← AgentCommunicationHub.build_consensus_gathered
    [("bank_analysis", bank_analysis), ("salary_analysis", salary_analysis),
     ("verification", verification)]
  make_decision_gathered application bank_analysis salary_analysis verification consensus

end LoanApplicationProcessor

namespace SubmitRoute

/-- The request body fields the submission `POST` handler reads.  Optional
form fields (`||`-defaulted in the handler) are `Option`-valued. -/
structure Body where
  firstName : String
  lastName : String
  personalId : String
  gender : String
  birthYear : String
  phone : String
  address : String
  educationLevel : String
  university : Option String
  employmentStatus : String
  companyName : Option String
  monthlySalary : ℚ
  experienceYears : ℤ
  loanPurpose : String
  loanAmount : ℚ
  loanDuration : ℤ
  additionalInfo : Option String
  bankStatementUrl : Option String
  salaryStatementUrl : Option String
deriving DecidableEq

/-- One row the handler inserts, tagged by table. -/
inductive Row
  | customer (customerId : Nat) (applicationStatus : String)
  | personalInfo (customerId : Nat) (firstName lastName personalId gender birthYear phone address : String)
  | education (customerId : Nat) (educationLevel : String) (university : Option String)
  | employment (customerId : Nat) (employmentStatus : String) (companyName : Option String)
      (monthlySalary : ℚ) (experienceYears : ℤ)
  | loanApplication (customerId : Nat) (loanPurpose : String) (loanAmount : ℚ)
      (loanDuration : ℤ) (additionalInfo : Option String)
  | document (customerId : Nat) (documentType : String) (filePath : String)
deriving DecidableEq

/-- The INSERT statements the handler issues between `BEGIN` and `COMMIT`,
in source order: customers, personal info, education, employment, loan
application, then a document row per uploaded statement URL. -/
def plannedRows (customerId : Nat) (body : Body) : List Row :=
  [Row.customer customerId "pending",
   Row.personalInfo customerId body.firstName body.lastName body.personalId
     body.gender body.birthYear body.phone body.address,
   Row.education customerId body.educationLevel body.university,
   Row.employment customerId body.employmentStatus body.companyName
     body.monthlySalary body.experienceYears,
   Row.loanApplication customerId body.loanPurpose body.loanAmount
     body.loanDuration body.additionalInfo] ++
  (match body.bankStatementUrl with
   | some url => [Row.document customerId "bank_statement" url]
   | none => []) ++
  (match body.salaryStatementUrl with
   | some url => [Row.document customerId "salary_statement" url]
   | none => [])

/-- Database connection state during the handler's transaction:
`committed` rows are visible to other readers, `pending` rows were written
after `BEGIN` and are visible only on `COMMIT`.  This is the documented
PostgreSQL transaction contract of the external `pg` client. -/
structure DbState where
  committed : List Row
  pending : List Row
deriving DecidableEq

/-- `client.query('COMMIT')`: pending rows become durable. -/
def commit (st : DbState) : DbState :=
  { committed := st.committed ++ st.pending, pending := [] }

/-- `client.query('ROLLBACK')`: pending rows are discarded. -/
def rollback (st : DbState) : DbState :=
  { committed := st.committed, pending := [] }

/-- Run the handler's sequence of `client.query(INSERT …)` calls.
`failAt = some i` means the `i`-th insert (0-based, in issue order) raises
a database error; the sequence stops there, as the thrown error transfers
control to the handler's `catch`. -/
def runInserts (st : DbState) (rows : List Row) (failAt : Option Nat) (idx : Nat) :
    Except DbState DbState :=
  match rows with
  | [] => Except.ok st
  | r :: rs =>
    if failAt = some idx then Except.error st
    else runInserts { st with pending := st.pending ++ [r] } rs failAt (idx + 1)

/-- The `POST` handler of the loan-application submission route, given the
database snapshot, the parsed body, the generated customer UUID and which
insert (if any) fails: returns the visible database afterwards and the
HTTP status.  Missing `firstName`/`lastName`/`personalId` short-circuits to
400 before `BEGIN`; an insert failure is caught, `ROLLBACK` is issued and
500 returned; otherwise `COMMIT` and 201.  (The post-commit call to the AI
agent never changes the outcome: both of its failure paths are caught and
the handler still returns 201.) -/
def runPOST (db : List Row) (body : Body) (customerId : Nat) (failAt : Option Nat) :
    List Row × Nat :=
  if body.firstName = "" ∨ body.lastName = "" ∨ body.personalId = "" then
    (db, 400)
  else
    let st0 : DbState := { committed := db, pending := [] }
    match runInserts st0 (plannedRows customerId body) failAt 0 with
    | Except.ok st => ((commit st).committed, 201)
    | Except.error st => ((rollback st).committed, 500)

end SubmitRoute

/-! ## Concrete fixtures used by witnesses and counterexamples -/

/-- An analyzer result: risk 10, approve, confidence 0.9, no red flags. -/
def approve_risk10 : AnalysisResult :=
  { confidence_score := 9 / 10, risk_score := 10, recommendation := Recommendation.approve
    reasoning := "consistent income", red_flags := [] }

/-- An analyzer result: risk 5, approve, confidence 0.9, no red flags. -/
def approve_risk5 : AnalysisResult :=
  { confidence_score := 9 / 10, risk_score := 5, recommendation := Recommendation.approve
    reasoning := "clean history", red_flags := [] }

/-- An analyzer result: risk 15, approve, confidence 0.9, no red flags
(the spec's approval scenario). -/
def approve_risk15 : AnalysisResult :=
  { confidence_score := 9 / 10, risk_score := 15, recommendation := Recommendation.approve
    reasoning := "low risk", red_flags := [] }

/-- A red flag of type `fraud`. -/
def fraud_flag : RedFlag := { type := "fraud", severity := "high" }

/-- A non-fraud red flag. -/
def large_txn_flag : RedFlag := { type := "unusual_large_transaction", severity := "medium" }

/-- Another non-fraud red flag. -/
def round_numbers_flag : RedFlag := { type := "suspicious_round_numbers", severity := "high" }

/-- A low-risk approving result that nevertheless carries a fraud flag. -/
def fraud_risk5 : AnalysisResult :=
  { confidence_score := 9 / 10, risk_score := 5, recommendation := Recommendation.approve
    reasoning := "document anomaly", red_flags := [fraud_flag] }

/-- A result carrying two non-fraud red flags. -/
def flagged_risk40 : AnalysisResult :=
  { confidence_score := 8 / 10, risk_score := 40, recommendation := Recommendation.review
    reasoning := "several anomalies", red_flags := [large_txn_flag, round_numbers_flag] }

/-- A result carrying one non-fraud red flag. -/
def flagged_risk30 : AnalysisResult :=
  { confidence_score := 8 / 10, risk_score := 30, recommendation := Recommendation.review
    reasoning := "one anomaly", red_flags := [large_txn_flag] }

/-- A moderate-risk reviewing result with no red flags. -/
def review_risk50 : AnalysisResult :=
  { confidence_score := 9 / 10, risk_score := 50, recommendation := Recommendation.review
    reasoning := "elevated risk", red_flags := [] }

/-- A $10,000, 24-month personal-loan application. -/
def modest_app : LoanApplication := ⟨⟨10000, 24, "personal"⟩⟩

/-- A $60,000, 24-month personal-loan application. -/
def app60 : LoanApplication := ⟨⟨60000, 24, "personal"⟩⟩

/-- A unanimous consensus of strength 1. -/
def consensus_full : AgentCommunicationHub.Consensus :=
  { consensus_recommendation := some Recommendation.approve, consensus_strength := 1
    weighted_risk_score := 5 }

/-- A split consensus of strength 0.5. -/
def consensus_split : AgentCommunicationHub.Consensus :=
  { consensus_recommendation := some Recommendation.approve, consensus_strength := 1 / 2
    weighted_risk_score := 10 }

/-- A unanimous reviewing consensus of strength 1. -/
def consensus_review : AgentCommunicationHub.Consensus :=
  { consensus_recommendation := some Recommendation.review, consensus_strength := 1
    weighted_risk_score := 50 }

/-- The analysis-results map of the spec's approval scenario: all three
analyzers at risk 15 / approve / confidence 0.9, no red flags. -/
def scenario_results : List (String × AnalysisResult) :=
  [("bank_analysis", approve_risk15), ("salary_analysis", approve_risk15),
   ("verification", approve_risk15)]

/-- Two deliberating analyzers, each holding a structured recommendation
(`approve`) next to the free-text message the communication hub actually
inspects. -/
def c8_deliberating_agents : List (Recommendation × String) :=
  [(Recommendation.approve, "I approve this application"),
   (Recommendation.approve, "Strong financials, approve with standard terms")]

/-- A fully filled submission body with both document uploads. -/
def sample_body : SubmitRoute.Body :=
  { firstName := "John", lastName := "Doe", personalId := "1234567890"
    gender := "male", birthYear := "1990", phone := "+1 234 567 890"
    address := "123 Main St", educationLevel := "bachelor"
    university := some "State University", employmentStatus := "employed"
    companyName := some "Acme Ltd", monthlySalary := 5000, experienceYears := 3
    loanPurpose := "personal", loanAmount := 10000, loanDuration := 24
    additionalInfo := none, bankStatementUrl := some "gs://docs/bank.pdf"
    salaryStatementUrl := some "gs://docs/salary.pdf" }

/-! ## Helper lemmas -/

/-- `round(·, 2)` is exact on rationals with at most two decimal places. -/
theorem round2_div100 (n : ℤ) : round2 ((n : ℚ) / 100) = (n : ℚ) / 100 := by
  unfold round2
  rw [show ((n : ℚ) / 100) * 100 = (n : ℚ) by field_simp, round_intCast]

/-- Projection of the aggregate total risk score. -/
theorem total_risk_score_eq (b s v : ℤ) (ld : LoanRequest) :
    (RiskScoringModel.calculate_aggregate_risk b s v ld).total_risk_score =
      round2 ((b : ℚ) * (35 / 100) + (s : ℚ) * (30 / 100) + (v : ℚ) * (20 / 100) +
        ((RiskScoringModel.calculate_loan_risk ld : ℤ) : ℚ) * (15 / 100)) := rfl

/-- Projection of the aggregate risk category. -/
theorem risk_category_eq (b s v : ℤ) (ld : LoanRequest) :
    (RiskScoringModel.calculate_aggregate_risk b s v ld).risk_category =
      (RiskScoringModel.risk_banding ((b : ℚ) * (35 / 100) + (s : ℚ) * (30 / 100) +
        (v : ℚ) * (20 / 100) +
        ((RiskScoringModel.calculate_loan_risk ld : ℤ) : ℚ) * (15 / 100))).1 := rfl

/-- Projection of the aggregate risk recommendation. -/
theorem risk_recommendation_eq (b s v : ℤ) (ld : LoanRequest) :
    (RiskScoringModel.calculate_aggregate_risk b s v ld).recommendation =
      (RiskScoringModel.risk_banding ((b : ℚ) * (35 / 100) + (s : ℚ) * (30 / 100) +
        (v : ℚ) * (20 / 100) +
        ((RiskScoringModel.calculate_loan_risk ld : ℤ) : ℚ) * (15 / 100))).2 := rfl

/-- The weighted sum of integer risks over the /100 weights as one fraction. -/
theorem weighted_sum_eq (b s v L : ℤ) :
    (b : ℚ) * (35 / 100) + (s : ℚ) * (30 / 100) + (v : ℚ) * (20 / 100) +
      (L : ℚ) * (15 / 100) = ((35 * b + 30 * s + 20 * v + 15 * L : ℤ) : ℚ) / 100 := by
  push_cast
  ring

namespace AgentCommunicationHub

/-- The deliberation loop never runs more rounds than its fuel allows. -/
theorem run_rounds_le (msgs : Nat → List String) (fuel k : Nat) :
    run_rounds msgs fuel k ≤ k + fuel := by
  induction fuel generalizing k with
  | zero => simp [run_rounds]
  | succ n ih =>
    simp only [run_rounds]
    split
    · omega
    · have := ih (k + 1)
      omega

/-- The deliberation loop stops before exhausting its fuel exactly when
some round that is not the last possible one passes the early-consensus
check. -/
theorem run_rounds_lt_iff (msgs : Nat → List String) (fuel k : Nat) :
    run_rounds msgs fuel k < k + fuel ↔
      ∃ j, k ≤ j ∧ j + 1 < k + fuel ∧ check_early_consensus (msgs j) = true := by
  induction fuel generalizing k with
  | zero =>
    simp only [run_rounds]
    constructor
    · omega
    · rintro ⟨j, hj1, hj2, -⟩
      omega
  | succ n ih =>
    simp only [run_rounds]
    split
    · rename_i hc
      constructor
      · intro h
        exact ⟨k, le_refl k, by omega, hc⟩
      · rintro ⟨j, hj1, hj2, -⟩
        omega
    · rename_i hc
      rw [show k + (n + 1) = (k + 1) + n by omega, ih (k + 1)]
      constructor
      · rintro ⟨j, hj1, hj2, hj3⟩
        exact ⟨j, by omega, by omega, hj3⟩
      · rintro ⟨j, hj1, hj2, hj3⟩
        refine ⟨j, ?_, by omega, hj3⟩
        rcases Nat.eq_or_lt_of_le hj1 with rfl | h
        · exact absurd hj3 hc
        · omega

/-- Every round the deliberation loop ran past did fail the
early-consensus check. -/
theorem run_rounds_first_stop (msgs : Nat → List String) (fuel k j : Nat)
    (hkj : k ≤ j) (hlt : j + 1 < run_rounds msgs fuel k) :
    check_early_consensus (msgs j) = false := by
  induction fuel generalizing k with
  | zero =>
    simp only [run_rounds] at hlt
    omega
  | succ n ih =>
    simp only [run_rounds] at hlt
    split at hlt
    · omega
    · rename_i hc
      rcases Nat.eq_or_lt_of_le hkj with rfl | h
      · exact Bool.not_eq_true _ ▸ Bool.of_not_eq_true hc
      · exact ih (k + 1) h hlt

end AgentCommunicationHub

namespace SubmitRoute

/-- A fully successful insert sequence keeps the committed rows and stages
every planned row, in order. -/
theorem runInserts_none (st : DbState) (rows : List Row) (idx : Nat) :
    runInserts st rows none idx =
      Except.ok { committed := st.committed, pending := st.pending ++ rows } := by
  induction rows generalizing st idx with
  | nil => simp [runInserts]
  | cons r rs ih =>
    simp only [runInserts, reduceCtorEq, if_false]
    rw [ih]
    simp

/-- An insert sequence never touches the committed rows, whichever way it
ends. -/
theorem runInserts_committed (st : DbState) (rows : List Row) (failAt : Option Nat)
    (idx : Nat) :
    (∀ st', runInserts st rows failAt idx = Except.ok st' → st'.committed = st.committed) ∧
      (∀ st', runInserts st rows failAt idx = Except.error st' → st'.committed = st.committed) := by
  induction rows generalizing st idx with
  | nil =>
    constructor
    · intro st' h
      simp only [runInserts] at h
      cases h
      rfl
    · intro st' h
      simp only [runInserts] at h
      exact Except.noConfusion h
  | cons r rs ih =>
    constructor
    · intro st' h
      simp only [runInserts] at h
      split at h
      · cases h
      · exact (ih { st with pending := st.pending ++ [r] } (idx + 1)).1 st' h
    · intro st' h
      simp only [runInserts] at h
      split at h
      · cases h
        rfl
      · exact (ih { st with pending := st.pending ++ [r] } (idx + 1)).2 st' h

/-- An insert that is scheduled to fail within the sequence makes the
sequence end in the error branch. -/
theorem runInserts_some_isError (st : DbState) (rows : List Row) (i idx : Nat)
    (h1 : idx ≤ i) (h2 : i < idx + rows.length) :
    ∃ st', runInserts st rows (some i) idx = Except.error st' := by
  induction rows generalizing st idx with
  | nil =>
    simp only [List.length_nil] at h2
    omega
  | cons r rs ih =>
    simp only [runInserts]
    by_cases hik : (some i : Option Nat) = some idx
    · rw [if_pos hik]
      exact ⟨st, rfl⟩
    · rw [if_neg hik]
      refine ih _ (idx + 1) ?_ ?_
      · rcases Nat.eq_or_lt_of_le h1 with rfl | h
        · exact absurd rfl hik
        · omega
      · simp only [List.length_cons] at h2
        omega

end SubmitRoute

/-- `round(·, 2)` leaves any rational whose hundredfold is an integer
unchanged. -/
theorem round2_eq_self_of_mul_int (q : ℚ) (n : ℤ) (h : q * 100 = (n : ℚ)) : round2 q = q := by
  unfold round2
  rw [h, round_intCast, ← h, mul_div_cancel_right₀ _ (by norm_num : (100 : ℚ) ≠ 0)]

/-- When no override fires, `make_decision` returns the thresholded
decision gated by consensus strength, with loan terms computed from the
aggregate risk — spelled out field by field. -/
theorem make_decision_no_override (app : LoanApplication) (b s v : AnalysisResult)
    (c : AgentCommunicationHub.Consensus)
    (hov : LoanOfficerDecisionEngine.check_override_conditions [b, s, v] = none) :
    LoanOfficerDecisionEngine.make_decision app b s v c =
      { decision :=
          if c.consensus_strength < 6 / 10 then Decision.MANUAL_REVIEW
          else (RiskScoringModel.calculate_aggregate_risk b.risk_score s.risk_score
            v.risk_score app.loan_request).recommendation
        risk_score := (RiskScoringModel.calculate_aggregate_risk b.risk_score s.risk_score
          v.risk_score app.loan_request).total_risk_score
        risk_category := some (RiskScoringModel.calculate_aggregate_risk b.risk_score
          s.risk_score v.risk_score app.loan_request).risk_category
        confidence_score := some c.consensus_strength
        approved_amount := some (LoanOfficerDecisionEngine.calculate_loan_terms app
          (RiskScoringModel.calculate_aggregate_risk b.risk_score s.risk_score
            v.risk_score app.loan_request).total_risk_score).approved_amount
        interest_rate := some (LoanOfficerDecisionEngine.calculate_loan_terms app
          (RiskScoringModel.calculate_aggregate_risk b.risk_score s.risk_score
            v.risk_score app.loan_request).total_risk_score).interest_rate
        loan_duration := some (LoanOfficerDecisionEngine.calculate_loan_terms app
          (RiskScoringModel.calculate_aggregate_risk b.risk_score s.risk_score
            v.risk_score app.loan_request).total_risk_score).duration
        conditions := (LoanOfficerDecisionEngine.calculate_loan_terms app
          (RiskScoringModel.calculate_aggregate_risk b.risk_score s.risk_score
            v.risk_score app.loan_request).total_risk_score).conditions
        explanation := "" } := by
  simp only [LoanOfficerDecisionEngine.make_decision, hov]

/-- Loan terms for risk below 20: full requested amount at 3.5%. -/
theorem calculate_loan_terms_tier1 (app : LoanApplication) (risk : ℚ) (h2 : risk < 20) :
    (LoanOfficerDecisionEngine.calculate_loan_terms app risk).approved_amount =
        round2 app.loan_request.loan_amount ∧
      (LoanOfficerDecisionEngine.calculate_loan_terms app risk).interest_rate = 35 / 10 := by
  simp only [LoanOfficerDecisionEngine.calculate_loan_terms]
  split_ifs <;> first | exact ⟨rfl, rfl⟩ | linarith

/-- Loan terms for risk in [20, 40): 0.9 × requested amount at 5.5%. -/
theorem calculate_loan_terms_tier2 (app : LoanApplication) (risk : ℚ)
    (h1 : 20 ≤ risk) (h2 : risk < 40) :
    (LoanOfficerDecisionEngine.calculate_loan_terms app risk).approved_amount =
        round2 (app.loan_request.loan_amount * (9 / 10)) ∧
      (LoanOfficerDecisionEngine.calculate_loan_terms app risk).interest_rate = 55 / 10 := by
  simp only [LoanOfficerDecisionEngine.calculate_loan_terms]
  split_ifs <;> first | exact ⟨rfl, rfl⟩ | linarith

/-- Loan terms for risk in [40, 60): 0.7 × requested amount at 7.5%. -/
theorem calculate_loan_terms_tier3 (app : LoanApplication) (risk : ℚ)
    (h1 : 40 ≤ risk) (h2 : risk < 60) :
    (LoanOfficerDecisionEngine.calculate_loan_terms app risk).approved_amount =
        round2 (app.loan_request.loan_amount * (7 / 10)) ∧
      (LoanOfficerDecisionEngine.calculate_loan_terms app risk).interest_rate = 75 / 10 := by
  simp only [LoanOfficerDecisionEngine.calculate_loan_terms]
  split_ifs <;> first | exact ⟨rfl, rfl⟩ | linarith

/-- Loan terms for risk of 60 and above: nothing approved, rate 0. -/
theorem calculate_loan_terms_tier4 (app : LoanApplication) (risk : ℚ) (h1 : 60 ≤ risk) :
    (LoanOfficerDecisionEngine.calculate_loan_terms app risk).approved_amount = 0 ∧
      (LoanOfficerDecisionEngine.calculate_loan_terms app risk).interest_rate = 0 := by
  simp only [LoanOfficerDecisionEngine.calculate_loan_terms]
  split_ifs <;> first | refine ⟨?_, rfl⟩ | linarith
  exact round2_eq_self_of_mul_int _ 0 (by norm_num)

/-- The gathered pipeline on three successful analyzers reduces to the
pure consensus and decision computation. -/
theorem process_ok (app : LoanApplication) (b s v : AnalysisResult) :
    LoanApplicationProcessor.process app (Except.ok b) (Except.ok s) (Except.ok v) =
      Except.ok (LoanOfficerDecisionEngine.make_decision app b s v
        (AgentCommunicationHub.build_consensus
          [("bank_analysis", b), ("salary_analysis", s), ("verification", v)])) := rfl

/-! ## Claims -/

/-- C1 (amended): the aggregate weighted risk score uses the fixed
component weights 0.35 (financial history), 0.30 (employment/income),
0.20 (external verification) and 0.15 on the loan-characteristics term
derived directly from the application; but no failed-analyzer penalty
exists — a run whose salary analyzer failed raises an attribute error
while extracting that analyzer's fields instead of substituting the fixed
penalty 75 at weight 0.30. -/
theorem C1_fixed_weights_and_no_failed_penalty :
    (∀ (b s v : ℤ) (ld : LoanRequest),
        (RiskScoringModel.calculate_aggregate_risk b s v ld).total_risk_score =
          ((35 * b + 30 * s + 20 * v + 15 * RiskScoringModel.calculate_loan_risk ld : ℤ) : ℚ) /
            100) ∧
      (LoanApplicationProcessor.process modest_app (Except.ok approve_risk10)
          (Except.error "salary analyzer timed out") (Except.ok approve_risk10)).isOk = false := by
  constructor
  · intro b s v ld
    rw [total_risk_score_eq, weighted_sum_eq, round2_div100]
  · rfl

/-- C1 counterexample: with the salary analyzer in failed status and the
other two at risk 10, the engine does not substitute the 75 penalty at
weight 0.30 (which would give weighted score 28); it raises an attribute
error out of the consensus step, producing no score at all. -/
theorem C1_failed_penalty_counterexample :
    LoanApplicationProcessor.process modest_app (Except.ok approve_risk10)
        (Except.error "salary analyzer timed out") (Except.ok approve_risk10) =
      Except.error "AttributeError on analyzer exception: salary analyzer timed out" := rfl

/-- C2: any red flag of type `fraud` in any analyzer result makes the
decision engine return `REJECT` (the spec's `REJECTED`) with
`risk_score = 100`, skipping normal thresholding (no loan terms are
computed), whatever the application, the other risks and the consensus. -/
theorem C2_fraud_flag_forces_reject (app : LoanApplication) (b s v : AnalysisResult)
    (c : AgentCommunicationHub.Consensus)
    (h : [b, s, v].any LoanOfficerDecisionEngine.has_fraud_flag = true) :
    (LoanOfficerDecisionEngine.make_decision app b s v c).decision = Decision.REJECT ∧
      (LoanOfficerDecisionEngine.make_decision app b s v c).risk_score = 100 ∧
      (LoanOfficerDecisionEngine.make_decision app b s v c).approved_amount = none := by
  have hov : LoanOfficerDecisionEngine.check_override_conditions [b, s, v] =
      some { decision := Decision.REJECT, risk_score := 100
             explanation := "Document fraud detected. Application rejected."
             conditions := ["FRAUD_DETECTED"] } := by
    unfold LoanOfficerDecisionEngine.check_override_conditions
    simp [h]
  simp [LoanOfficerDecisionEngine.make_decision, hov]

/-- C2 witness: risks 5/5/5 (weighted score deep in the LOW band) plus a
single fraud flag on the salary analysis still yields `REJECT` with risk
score 100. -/
theorem C2_fraud_flag_forces_reject_witness :
    (LoanOfficerDecisionEngine.make_decision modest_app approve_risk5 fraud_risk5
        approve_risk5 consensus_full).decision = Decision.REJECT ∧
      (LoanOfficerDecisionEngine.make_decision modest_app approve_risk5 fraud_risk5
        approve_risk5 consensus_full).risk_score = 100 := by
  have h := C2_fraud_flag_forces_reject modest_app approve_risk5 fraud_risk5 approve_risk5
    consensus_full (by decide)
  exact ⟨h.1, h.2.1⟩

/-- C3: when no fraud flag is present and fewer than 3 red flags were
raised in total, a consensus strength below 0.6 forces `MANUAL_REVIEW`
regardless of the weighted risk score. -/
theorem C3_low_consensus_forces_manual_review (app : LoanApplication)
    (b s v : AnalysisResult) (c : AgentCommunicationHub.Consensus)
    (hfraud : [b, s, v].any LoanOfficerDecisionEngine.has_fraud_flag = false)
    (hflags : ([b, s, v].map (fun r => r.red_flags.length)).sum < 3)
    (hstrength : c.consensus_strength < 6 / 10) :
    (LoanOfficerDecisionEngine.make_decision app b s v c).decision =
      Decision.MANUAL_REVIEW := by
  have hov : LoanOfficerDecisionEngine.check_override_conditions [b, s, v] = none := by
    unfold LoanOfficerDecisionEngine.check_override_conditions
    simp only [hfraud, Bool.false_eq_true, if_false]
    rw [if_neg (by omega)]
  simp [LoanOfficerDecisionEngine.make_decision, hov, hstrength]

/-- C3 witness: consensus strength 0.5 with all three analyzers at risk 10
(weighted score 8.5, LOW band) still yields `MANUAL_REVIEW`, not
`APPROVE`. -/
theorem C3_low_consensus_witness :
    (LoanOfficerDecisionEngine.make_decision modest_app approve_risk10 approve_risk10
        approve_risk10 consensus_split).decision = Decision.MANUAL_REVIEW :=
  C3_low_consensus_forces_manual_review modest_app approve_risk10 approve_risk10
    approve_risk10 consensus_split (by decide) (by decide)
    (by norm_num [consensus_split])

/-- C4 (amended): the risk bands are half-open at the code's strict
comparisons — [0,20) LOW/APPROVE, [20,40) MODERATE_LOW/APPROVE,
[40,60) MODERATE/MANUAL_REVIEW, [60,75) MODERATE_HIGH/REJECT and
[75,100] HIGH/REJECT — so each boundary value 20, 40, 60, 75 already
belongs to the next band up. -/
theorem C4_half_open_risk_bands (t : ℚ) :
    (0 ≤ t ∧ t < 20 →
        RiskScoringModel.risk_banding t = (RiskCategory.LOW_RISK, Decision.APPROVE)) ∧
      (20 ≤ t ∧ t < 40 →
        RiskScoringModel.risk_banding t = (RiskCategory.MODERATE_LOW_RISK, Decision.APPROVE)) ∧
      (40 ≤ t ∧ t < 60 →
        RiskScoringModel.risk_banding t = (RiskCategory.MODERATE_RISK, Decision.MANUAL_REVIEW)) ∧
      (60 ≤ t ∧ t < 75 →
        RiskScoringModel.risk_banding t = (RiskCategory.MODERATE_HIGH_RISK, Decision.REJECT)) ∧
      (75 ≤ t ∧ t ≤ 100 →
        RiskScoringModel.risk_banding t = (RiskCategory.HIGH_RISK, Decision.REJECT)) := by
  refine ⟨?_, ?_, ?_, ?_, ?_⟩ <;> rintro ⟨h1, h2⟩ <;>
    simp only [RiskScoringModel.risk_banding] <;> split_ifs <;> first | rfl | linarith

/-- C4 witness: a weighted risk score of exactly 75 is already HIGH and
rejected. -/
theorem C4_half_open_risk_bands_witness :
    RiskScoringModel.risk_banding 75 = (RiskCategory.HIGH_RISK, Decision.REJECT) :=
  (C4_half_open_risk_bands 75).2.2.2.2 ⟨by norm_num, by norm_num⟩

/-- C4 counterexample: analyzer risks 20/20/20 with a loan-characteristics
term of 20 give a weighted risk score of exactly 20, which the code
classifies as MODERATE_LOW_RISK — not LOW as the claim's banding table
(0–20 inclusive) states. -/
theorem C4_boundary_20_counterexample :
    (RiskScoringModel.calculate_aggregate_risk 20 20 20 ⟨60000, 72, "personal"⟩).total_risk_score
        = 20 ∧
      (RiskScoringModel.calculate_aggregate_risk 20 20 20 ⟨60000, 72, "personal"⟩).risk_category
        = RiskCategory.MODERATE_LOW_RISK ∧
      RiskCategory.MODERATE_LOW_RISK ≠ RiskCategory.LOW_RISK := by
  refine ⟨?_, ?_, by decide⟩
  · rw [total_risk_score_eq,
      show RiskScoringModel.calculate_loan_risk ⟨60000, 72, "personal"⟩ = 20 from by decide,
      weighted_sum_eq, round2_div100]
    norm_num
  · rw [risk_category_eq,
      show RiskScoringModel.calculate_loan_risk ⟨60000, 72, "personal"⟩ = 20 from by decide,
      weighted_sum_eq]
    norm_num [RiskScoringModel.risk_banding]

/-- C5 (amended): the consensus recommendation is a plurality winner, but
a tie does not break toward the conservative ordering
`reject > review > approve`; it breaks toward the recommendation first
encountered in the results-map iteration order, so with three distinct
votes the first analyzer's vote wins. -/
theorem C5_plurality_with_first_listed_tie_break :
    ∀ r1 r2 r3 : Recommendation,
      AgentCommunicationHub.consensus_recommendation_of [r1, r2, r3] =
          some (if r2 = r3 ∧ ¬r1 = r2 then r2 else r1) ∧
        ∀ r : Recommendation,
          [r1, r2, r3].count r ≤ [r1, r2, r3].count (if r2 = r3 ∧ ¬r1 = r2 then r2 else r1) := by
  decide

/-- C5 counterexample: one vote each for approve (first analyzer), review
and reject yields `approve` — not the conservative `reject` the claim
requires for a plurality tie. -/
theorem C5_tie_break_counterexample :
    AgentCommunicationHub.consensus_recommendation_of
        [Recommendation.approve, Recommendation.review, Recommendation.reject] =
      some Recommendation.approve ∧ Recommendation.approve ≠ Recommendation.reject := by
  decide

/-- C6 (amended): loan terms are computed for every non-override decision,
not only approvals, in four tiers — risk < 20: full requested amount at
3.5%; [20,40): 0.9 × requested at 5.5%; [40,60): 0.7 × requested at 7.5%;
≥ 60: amount 0 at rate 0.  The $10,000/24-month scenario with all three
analyzers at risk 15/approve/confidence 0.9 and no red flags yields
APPROVE, approved amount $10,000, interest rate 3.5%, consensus strength
1. -/
theorem C6_loan_terms_tiers_and_scenario :
    (∀ (app : LoanApplication) (risk : ℚ), risk < 20 →
        (LoanOfficerDecisionEngine.calculate_loan_terms app risk).approved_amount =
            round2 app.loan_request.loan_amount ∧
          (LoanOfficerDecisionEngine.calculate_loan_terms app risk).interest_rate = 35 / 10) ∧
      (∀ (app : LoanApplication) (risk : ℚ), 20 ≤ risk → risk < 40 →
        (LoanOfficerDecisionEngine.calculate_loan_terms app risk).approved_amount =
            round2 (app.loan_request.loan_amount * (9 / 10)) ∧
          (LoanOfficerDecisionEngine.calculate_loan_terms app risk).interest_rate = 55 / 10) ∧
      (∀ (app : LoanApplication) (risk : ℚ), 40 ≤ risk → risk < 60 →
        (LoanOfficerDecisionEngine.calculate_loan_terms app risk).approved_amount =
            round2 (app.loan_request.loan_amount * (7 / 10)) ∧
          (LoanOfficerDecisionEngine.calculate_loan_terms app risk).interest_rate = 75 / 10) ∧
      (∀ (app : LoanApplication) (risk : ℚ), 60 ≤ risk →
        (LoanOfficerDecisionEngine.calculate_loan_terms app risk).approved_amount = 0 ∧
          (LoanOfficerDecisionEngine.calculate_loan_terms app risk).interest_rate = 0) ∧
      (∃ d : DecisionResult,
        LoanApplicationProcessor.process modest_app (Except.ok approve_risk15)
            (Except.ok approve_risk15) (Except.ok approve_risk15) = Except.ok d ∧
          d.decision = Decision.APPROVE ∧ d.approved_amount = some 10000 ∧
          d.interest_rate = some (35 / 10) ∧ d.confidence_score = some 1) := by
  have hov : LoanOfficerDecisionEngine.check_override_conditions
      [approve_risk15, approve_risk15, approve_risk15] = none := by decide
  have hs : (AgentCommunicationHub.build_consensus
      [("bank_analysis", approve_risk15), ("salary_analysis", approve_risk15),
       ("verification", approve_risk15)]).consensus_strength = 1 := by
    have hwin : AgentCommunicationHub.consensus_recommendation_of
        ([("bank_analysis", approve_risk15), ("salary_analysis", approve_risk15),
          ("verification", approve_risk15)].map (fun p => p.2.recommendation)) =
        some Recommendation.approve := by decide
    have hcount : AgentCommunicationHub.count_of
        ([("bank_analysis", approve_risk15), ("salary_analysis", approve_risk15),
          ("verification", approve_risk15)].map (fun p => p.2.recommendation))
        Recommendation.approve = 3 := by decide
    simp only [AgentCommunicationHub.build_consensus, hwin, hcount]
    norm_num
  have hL : RiskScoringModel.calculate_loan_risk modest_app.loan_request = 0 := by decide
  have ht : (RiskScoringModel.calculate_aggregate_risk approve_risk15.risk_score
      approve_risk15.risk_score approve_risk15.risk_score
      modest_app.loan_request).total_risk_score = 51 / 4 := by
    rw [total_risk_score_eq, hL, weighted_sum_eq, round2_div100]
    norm_num [approve_risk15]
  have hrec : (RiskScoringModel.calculate_aggregate_risk approve_risk15.risk_score
      approve_risk15.risk_score approve_risk15.risk_score
      modest_app.loan_request).recommendation = Decision.APPROVE := by
    rw [risk_recommendation_eq, hL, weighted_sum_eq]
    norm_num [RiskScoringModel.risk_banding, approve_risk15]
  have hterms := calculate_loan_terms_tier1 modest_app (51 / 4) (by norm_num)
  have hamount : round2 modest_app.loan_request.loan_amount = 10000 := by
    rw [show modest_app.loan_request.loan_amount = (10000 : ℚ) from rfl]
    exact round2_eq_self_of_mul_int _ 1000000 (by norm_num)
  refine ⟨calculate_loan_terms_tier1, calculate_loan_terms_tier2, calculate_loan_terms_tier3,
    calculate_loan_terms_tier4,
    ⟨_, process_ok modest_app approve_risk15 approve_risk15 approve_risk15, ?_, ?_, ?_, ?_⟩⟩
  · simp only [make_decision_no_override _ _ _ _ _ hov, hs, hrec]
    norm_num
  · simp only [make_decision_no_override _ _ _ _ _ hov, ht, hterms.1, hamount]
  · simp only [make_decision_no_override _ _ _ _ _ hov, ht, hterms.2]
  · simp only [make_decision_no_override _ _ _ _ _ hov, hs]

/-- C6 witness: at risk 10 the first tier applies — interest rate 3.5%. -/
theorem C6_loan_terms_tiers_witness :
    (LoanOfficerDecisionEngine.calculate_loan_terms modest_app 10).interest_rate = 35 / 10 :=
  (C6_loan_terms_tiers_and_scenario.1 modest_app 10 (by norm_num)).2

/-- C6 counterexample: risks 50/50/50 on a $60,000 application give
weighted risk 44, so the decision is `MANUAL_REVIEW` — not APPROVED — and
the result still carries computed loan terms (approved amount $42,000,
the 0.7 × tier, at 7.5%), contradicting both "terms only when APPROVED"
and "no approval tier for risk ≥ 40". -/
theorem C6_manual_review_carries_terms_counterexample :
    (LoanOfficerDecisionEngine.make_decision app60 review_risk50 review_risk50 review_risk50
        consensus_review).decision = Decision.MANUAL_REVIEW ∧
      (LoanOfficerDecisionEngine.make_decision app60 review_risk50 review_risk50 review_risk50
        consensus_review).approved_amount = some 42000 ∧
      (LoanOfficerDecisionEngine.make_decision app60 review_risk50 review_risk50 review_risk50
        consensus_review).interest_rate = some (75 / 10) := by
  have hov : LoanOfficerDecisionEngine.check_override_conditions
      [review_risk50, review_risk50, review_risk50] = none := by decide
  have hL : RiskScoringModel.calculate_loan_risk app60.loan_request = 10 := by decide
  have ht : (RiskScoringModel.calculate_aggregate_risk review_risk50.risk_score
      review_risk50.risk_score review_risk50.risk_score app60.loan_request).total_risk_score =
      44 := by
    rw [total_risk_score_eq, hL, weighted_sum_eq, round2_div100]
    norm_num [review_risk50]
  have hrec : (RiskScoringModel.calculate_aggregate_risk review_risk50.risk_score
      review_risk50.risk_score review_risk50.risk_score app60.loan_request).recommendation =
      Decision.MANUAL_REVIEW := by
    rw [risk_recommendation_eq, hL, weighted_sum_eq]
    norm_num [RiskScoringModel.risk_banding, review_risk50]
  have hterms := calculate_loan_terms_tier3 app60 44 (by norm_num) (by norm_num)
  have hamount : round2 (app60.loan_request.loan_amount * (7 / 10)) = 42000 := by
    rw [show app60.loan_request.loan_amount * (7 / 10) = (42000 : ℚ) from by norm_num [app60]]
    exact round2_eq_self_of_mul_int _ 4200000 (by norm_num)
  simp only [make_decision_no_override _ _ _ _ _ hov, ht, hrec, hterms.1, hterms.2, hamount]
  norm_num [consensus_review]

/-- C7: with no fraud flag anywhere, a total of 3 or more red flags across
the analyzers forces `REJECT`, bypassing normal thresholding (the result
carries no banded risk category). -/
theorem C7_red_flag_count_forces_reject (app : LoanApplication) (b s v : AnalysisResult)
    (c : AgentCommunicationHub.Consensus)
    (hfraud : [b, s, v].any LoanOfficerDecisionEngine.has_fraud_flag = false)
    (hflags : 3 ≤ ([b, s, v].map (fun r => r.red_flags.length)).sum) :
    (LoanOfficerDecisionEngine.make_decision app b s v c).decision = Decision.REJECT ∧
      (LoanOfficerDecisionEngine.make_decision app b s v c).risk_category = none := by
  have hov : LoanOfficerDecisionEngine.check_override_conditions [b, s, v] =
      some { decision := Decision.REJECT, risk_score := 85
             explanation := "Multiple red flags detected. Application rejected." } := by
    unfold LoanOfficerDecisionEngine.check_override_conditions
    simp only [hfraud, Bool.false_eq_true, if_false]
    rw [if_pos hflags]
  simp [LoanOfficerDecisionEngine.make_decision, hov]

/-- C7 witness: three non-fraud red flags spread over two analyzers (2+1)
force `REJECT` even under a unanimous approve consensus. -/
theorem C7_red_flag_count_witness :
    (LoanOfficerDecisionEngine.make_decision modest_app flagged_risk40 flagged_risk30
        approve_risk10 consensus_full).decision = Decision.REJECT ∧
      (LoanOfficerDecisionEngine.make_decision modest_app flagged_risk40 flagged_risk30
        approve_risk10 consensus_full).risk_category = none :=
  C7_red_flag_count_forces_reject modest_app flagged_risk40 flagged_risk30 approve_risk10
    consensus_full (by decide) (by decide)

/-- C8 (amended): deliberation executes at most the configured maximum
number of rounds; it stops before the limit exactly when some earlier
round's messages pass the hub's textual early-consensus check (the
lowercased messages containing "approve" or "reject" are all identical as
strings), and every round it ran past had failed that check.  The check
is textual, not a comparison of the analyzers' structured
recommendations. -/
theorem C8_round_limit_and_early_stop (max_rounds : Nat) (msgs : Nat → List String) :
    AgentCommunicationHub.facilitate_discussion_rounds max_rounds msgs ≤ max_rounds ∧
      (AgentCommunicationHub.facilitate_discussion_rounds max_rounds msgs < max_rounds ↔
        ∃ k, k + 1 < max_rounds ∧ AgentCommunicationHub.check_early_consensus (msgs k) = true) ∧
      ∀ j, j + 1 < AgentCommunicationHub.facilitate_discussion_rounds max_rounds msgs →
        AgentCommunicationHub.check_early_consensus (msgs j) = false := by
  refine ⟨?_, ?_, ?_⟩
  · simpa [AgentCommunicationHub.facilitate_discussion_rounds] using
      AgentCommunicationHub.run_rounds_le msgs max_rounds 0
  · simpa [AgentCommunicationHub.facilitate_discussion_rounds] using
      AgentCommunicationHub.run_rounds_lt_iff msgs max_rounds 0
  · intro j hj
    exact AgentCommunicationHub.run_rounds_first_stop msgs max_rounds 0 j (Nat.zero_le j)
      (by simpa [AgentCommunicationHub.facilitate_discussion_rounds] using hj)

/-- C8 witness: a single message containing "approve" passes the early
check, so a 3-round deliberation stops early. -/
theorem C8_round_limit_witness :
    AgentCommunicationHub.facilitate_discussion_rounds 3 (fun _ => ["i approve"]) < 3 :=
  (C8_round_limit_and_early_stop 3 (fun _ => ["i approve"])).2.1.mpr
    ⟨0, by omega, by decide⟩

/-- C8 counterexample: two non-failed analyzers whose current
recommendation is identical (both approve) but whose message texts differ
never trigger the early stop — the 3-round deliberation runs all 3 rounds
instead of stopping after round 1 as the claim requires. -/
theorem C8_identical_recommendations_counterexample :
    (c8_deliberating_agents.map Prod.fst).dedup = [Recommendation.approve] ∧
      AgentCommunicationHub.facilitate_discussion_rounds 3
        (fun _ => c8_deliberating_agents.map Prod.snd) = 3 := by
  decide

/-- C9: an analyzer failure is absorbed by the gather
(`return_exceptions=True`) but then crashes the consensus step — the run
raises an attribute error to the caller instead of resolving into a
`DecisionResult`, contradicting the documented isolation policy. -/
theorem C9_analyzer_failure_raises :
    LoanApplicationProcessor.process modest_app
        (Except.error "bank analyzer raised ValueError") (Except.ok approve_risk10)
        (Except.ok approve_risk10) =
      Except.error "AttributeError on analyzer exception: bank analyzer raised ValueError" := rfl

/-- C10: on a body that passes validation, the submission handler is
atomic: an insert failure at any position rolls the transaction back
leaving the database unchanged and returns 500, and when every insert
succeeds all of the application's rows are committed together with 201. -/
theorem C10_submission_transaction_atomic (db : List SubmitRoute.Row)
    (body : SubmitRoute.Body) (customerId : Nat)
    (hvalid : ¬(body.firstName = "" ∨ body.lastName = "" ∨ body.personalId = "")) :
    (∀ i, i < (SubmitRoute.plannedRows customerId body).length →
        SubmitRoute.runPOST db body customerId (some i) = (db, 500)) ∧
      SubmitRoute.runPOST db body customerId none =
        (db ++ SubmitRoute.plannedRows customerId body, 201) := by
  constructor
  · intro i hi
    unfold SubmitRoute.runPOST
    rw [if_neg hvalid]
    obtain ⟨st', hst'⟩ := SubmitRoute.runInserts_some_isError ⟨db, []⟩
      (SubmitRoute.plannedRows customerId body) i 0 (Nat.zero_le i) (by simpa using hi)
    have hc := (SubmitRoute.runInserts_committed ⟨db, []⟩
      (SubmitRoute.plannedRows customerId body) (some i) 0).2 st' hst'
    simp [hst', SubmitRoute.rollback, hc]
  · unfold SubmitRoute.runPOST
    rw [if_neg hvalid]
    simp [SubmitRoute.runInserts_none, SubmitRoute.commit]

/-- C10 witness: the sample submission with both documents commits all
seven rows and returns 201. -/
theorem C10_submission_transaction_witness :
    SubmitRoute.runPOST [] sample_body 7 none =
      ([] ++ SubmitRoute.plannedRows 7 sample_body, 201) :=
  (C10_submission_transaction_atomic [] sample_body 7 (by decide)).2

end LoanAI
